import Mathlib

/-!
Shallow embedding of the Stitch UI Prompt Builder app (src/app.py), covering
the session-state store, the saved-prompt registry (append / filter / delete),
the context composer, the dispatch guards, the error handlers around the
external AI calls, the result renderer, and the refinement text trimming.
-/

set_option maxRecDepth 4000

namespace StitchApp

/-- A saved prompt record, as built by the save handlers in app.py
(lines 365-371 and 512-518): a dict with keys title, prompt, project_type,
level, timestamp. -/
structure SavedPrompt where
  title : String
  prompt : String
  project_type : String
  level : String
  timestamp : String
deriving DecidableEq, Repr

/-- The per-session state: `generated_prompts`, `prompt_level`, and the
optional `base_prompt` key (absent until first set). From app.py lines 41-44;
`base_prompt` is only ever created by the "use for refinement" buttons. -/
structure AppState where
  generated_prompts : List SavedPrompt
  prompt_level : String
  base_prompt : Option String
deriving DecidableEq, Repr

/-- Initial session state (app.py lines 41-44): empty prompt list, level
`high-level`, and no `base_prompt` key. -/
def initState : AppState := ⟨[], "high-level", none⟩

/-- The record built by the "Save Prompt" button (app.py lines 365-371). -/
def mkSavedPrompt (title prompt project_type level : String) : SavedPrompt :=
  ⟨title, prompt, project_type, level, "Just now"⟩

/-- The record built by the "Save to History" button on the refinement tab
(app.py lines 512-518). -/
def mkRefinementRecord (change_type screen_name prompt : String) : SavedPrompt :=
  ⟨"Refinement: " ++ change_type ++ " on " ++ screen_name, prompt,
   "Screen Refinement", "refinement", "Just now"⟩

/-- The filter of the Saved Prompts tab (app.py lines 536-545): an if/elif
chain over the selectbox value; any other value (in particular "All") yields
the full list unchanged. -/
def filteredPrompts (filter_type : String) (l : List SavedPrompt) : List SavedPrompt :=
  if filter_type = "High-Level" then l.filter (fun p => p.level == "high-level")
  else if filter_type = "Detailed" then l.filter (fun p => p.level == "detailed")
  else if filter_type = "Refinement" then l.filter (fun p => p.level == "refinement")
  else l

/-- The user-visible events that mutate session state.  `deleteAt` carries the
filter under which the Saved Prompts tab was rendered together with the
position of the clicked delete button in the *filtered* view. -/
inductive Event where
  | savePrompt (title prompt project_type level : String)
  | saveRefinement (change_type screen_name prompt : String)
  | useForRefinement (prompt : String)
  | deleteAt (filter_type : String) (idx : Nat)
deriving DecidableEq, Repr

/-- One event's effect on session state.  Save buttons append (app.py lines
365, 512); the "Use for Refinement" buttons overwrite `base_prompt` (lines
376, 523, 568); the delete button executes
`st.session_state.generated_prompts.pop(idx)` (line 573) - it pops the
*underlying* list at the index taken from the enumeration of the *filtered*
list, ignoring the filter. -/
def step (st : AppState) : Event → AppState
  | .savePrompt t p pt lv =>
      { st with generated_prompts := st.generated_prompts ++ [mkSavedPrompt t p pt lv] }
  | .saveRefinement ct sn p =>
      { st with generated_prompts := st.generated_prompts ++ [mkRefinementRecord ct sn p] }
  | .useForRefinement p =>
      { st with base_prompt := some p }
  | .deleteAt _ idx =>
      { st with generated_prompts := st.generated_prompts.eraseIdx idx }

/-- A session: fold the events over the initial state. -/
def run (evs : List Event) : AppState := evs.foldl step initState

/-- Predicate used to state the `base_prompt` lifecycle: is the event one of
the three "use for refinement" buttons? -/
def isUseForRefinement : Event → Bool
  | .useForRefinement _ => true
  | _ => false

/-- The base-description text area of the refinement tab (app.py lines
393-400): rendered with the stored value when the `base_prompt` key exists,
otherwise with a placeholder and no pre-filled value. -/
inductive BaseField where
  | withValue (v : String)
  | withPlaceholder (ph : String)
deriving DecidableEq, Repr

/-- Render of the refinement tab's base-description field from session state
(app.py lines 393-400). -/
def renderBaseField (st : AppState) : BaseField :=
  match st.base_prompt with
  | some v => .withValue v
  | none => .withPlaceholder "Paste your initial app prompt here or select from saved prompts"

/-- Structured record `UIPromptSuggestion` (app.py lines 13-18). -/
structure UIPromptSuggestion where
  prompt_title : String
  suggested_prompt : String
  key_elements : List String
  example_output : Option String
  prompt_type : String
deriving DecidableEq, Repr

/-- Structured record `UIDesignIdea` (app.py lines 20-25). -/
structure UIDesignIdea where
  app_name : String
  description : String
  main_features : List String
  target_audience : String
  ui_components : List String
deriving DecidableEq, Repr

/-- Outcome of an external `generate_content` call: either the parsed/raw
payload, or an exception message caught by the surrounding `except` block. -/
inductive Outcome (α : Type) where
  | ok (val : α)
  | exn (msg : String)
deriving DecidableEq, Repr

/-- Python's `str.strip()` whitespace class, restricted to the ASCII
whitespace characters. -/
def isPySpace (c : Char) : Bool :=
  c == ' ' || c == '\t' || c == '\n' || c == '\r' || c == '\x0b' || c == '\x0c'

/-- Python's `str.strip()`: drop leading and trailing whitespace. -/
def pyStrip (s : String) : String :=
  ⟨((s.data.dropWhile isPySpace).reverse.dropWhile isPySpace).reverse⟩

/-- `for idx, x in enumerate(xs): st.expander(..., expanded=idx==0)`
(app.py lines 201-202 and 341-342): each record paired with its
expanded-by-default flag, true exactly at enumeration index 0. -/
def renderExpanders {α : Type} (idx : Nat) : List α → List (α × Bool)
  | [] => []
  | r :: rs => (r, idx == 0) :: renderExpanders (idx + 1) rs

/-- What a handler leaves on the page: a missing-input warning
(`st.warning`), an inline error (`st.error`), or a successful result. -/
inductive Display where
  | warning (msg : String)
  | errorMsg (msg : String)
  | ideaResults (sections : List (UIDesignIdea × Bool))
  | promptResults (sections : List (UIPromptSuggestion × Bool))
  | refinementResult (text : String)
deriving DecidableEq, Repr

/-- Result of running one button handler: the session state afterwards,
whether the external AI call was dispatched, and what was displayed. -/
structure HandlerResult where
  state : AppState
  dispatched : Bool
  display : Display
deriving DecidableEq, Repr

/-- The "Generate Random UI Ideas" handler (app.py lines 187-213): always
dispatches; on success renders the ideas as expanders, on exception shows
`st.error(f"Error generating ideas: ...")`.  Session state is untouched on
both paths. -/
def ideaHandler (st : AppState) (outcome : Outcome (List UIDesignIdea)) : HandlerResult :=
  match outcome with
  | .ok ideas => ⟨st, true, .ideaResults (renderExpanders 0 ideas)⟩
  | .exn e => ⟨st, true, .errorMsg ("Error generating ideas: " ++ e)⟩

/-- The "Generate Stitch Prompts" handler (app.py lines 290-385).  The guard
on line 291 is `if project_type and (prompt_level == "high-level" or
project_description)` (Python truthiness of a string = non-empty); when it
fails, only a level-specific `st.warning` is shown (lines 382-385) and no
call is made.  On dispatch, success renders the suggestions as expanders and
an exception shows `st.error(f"Error generating prompts: ...")` (line 380).
The handler itself never mutates session state (saving is a separate button
event). -/
def generateHandler (st : AppState) (prompt_level project_type project_description : String)
    (outcome : Outcome (List UIPromptSuggestion)) : HandlerResult :=
  if project_type ≠ "" ∧ (prompt_level = "high-level" ∨ project_description ≠ "") then
    match outcome with
    | .ok suggestions => ⟨st, true, .promptResults (renderExpanders 0 suggestions)⟩
    | .exn e => ⟨st, true, .errorMsg ("Error generating prompts: " ++ e)⟩
  else if prompt_level = "high-level" then
    ⟨st, false, .warning "Please fill in the app type field."⟩
  else
    ⟨st, false, .warning "Please fill in the project type and description fields."⟩

/-- The "Generate Refinement Prompt" handler (app.py lines 466-529).  Guard
(line 467): `if base_prompt and screen_name and change_detail`; otherwise a
single `st.warning` (line 529).  On dispatch without a response schema the
displayed result is `response.text.strip()` (line 492); an exception shows
`st.error(f"Error generating refinement: ...")` (line 527). -/
def refinementHandler (st : AppState) (base_prompt screen_name change_detail : String)
    (outcome : Outcome String) : HandlerResult :=
  if base_prompt ≠ "" ∧ screen_name ≠ "" ∧ change_detail ≠ "" then
    match outcome with
    | .ok text => ⟨st, true, .refinementResult (pyStrip text)⟩
    | .exn e => ⟨st, true, .errorMsg ("Error generating refinement: " ++ e)⟩
  else
    ⟨st, false, .warning "Please fill in all required fields: base app description, screen name, and change details."⟩

/-- The 28 spaces of source indentation carried into the triple-quoted
f-strings of app.py lines 296-314. -/
def ind : String := "                            "

/-- Resolution of the `Visual Style` slot (app.py lines 300, 309):
`design_style if design_style != 'Custom' else custom_style if
'custom_style' in locals() else ''`. -/
def resolvedStyle (design_style : String) (custom_style : Option String) : String :=
  if design_style ≠ "Custom" then design_style else custom_style.getD ""

/-- The composed context for a high-level prompt (app.py lines 296-301): a
triple-quoted f-string with slots for the app type, the vibe adjectives and
the resolved visual style, and none of the detailed-only fields. -/
def highLevelContext (project_type vibe_adjectives visual_style : String) : String :=
  "\n" ++ ind ++ "Prompt Level: High-Level (for brainstorming)" ++
  "\n" ++ ind ++ "App Type: " ++ project_type ++
  "\n" ++ ind ++ "Vibe/Adjectives: " ++ vibe_adjectives ++
  "\n" ++ ind ++ "Visual Style: " ++ visual_style ++
  "\n" ++ ind

/-- The composed context for a detailed prompt (app.py lines 303-314), with
one slot per collected field. -/
def detailedContext (project_type description features vibe_adjectives visual_style
    color font_style button_style specific_screen : String) : String :=
  "\n" ++ ind ++ "Prompt Level: Detailed (for specific results)" ++
  "\n" ++ ind ++ "Project Type: " ++ project_type ++
  "\n" ++ ind ++ "Description: " ++ description ++
  "\n" ++ ind ++ "Features: " ++ features ++
  "\n" ++ ind ++ "Vibe/Adjectives: " ++ vibe_adjectives ++
  "\n" ++ ind ++ "Visual Style: " ++ visual_style ++
  "\n" ++ ind ++ "Color: " ++ color ++
  "\n" ++ ind ++ "Font Style: " ++ font_style ++
  "\n" ++ ind ++ "Button Style: " ++ button_style ++
  "\n" ++ ind ++ "Specific Screen: " ++ specific_screen ++
  "\n" ++ ind

/-- The field labels that appear only in the detailed context, never in the
high-level one (app.py lines 305-313). -/
def detailedOnlyLabels : List String :=
  ["Description:", "Features:", "Color:", "Font Style:", "Button Style:", "Specific Screen:"]

/-- A high-level record, as seeded in the regression scenario. -/
def recHigh : SavedPrompt := ⟨"HL", "hl prompt", "T", "high-level", "Just now"⟩

/-- A detailed record, as seeded in the regression scenario. -/
def recDetailed : SavedPrompt := ⟨"DT", "dt prompt", "T", "detailed", "Just now"⟩

/-- A refinement record, as seeded in the regression scenario. -/
def recRefine : SavedPrompt := ⟨"RF", "rf prompt", "T", "refinement", "Just now"⟩

/-- State seeded with three records of levels high-level, detailed,
refinement, in that order. -/
def seededState : AppState := ⟨[recHigh, recDetailed, recRefine], "high-level", none⟩

/-! ## Helper lemmas -/

theorem foldl_step_saves (qs : List (String × String × String × String)) (st : AppState) :
    ((qs.map (fun q => Event.savePrompt q.1 q.2.1 q.2.2.1 q.2.2.2)).foldl step st).generated_prompts
      = st.generated_prompts ++ qs.map (fun q => mkSavedPrompt q.1 q.2.1 q.2.2.1 q.2.2.2) := by
  induction qs generalizing st with
  | nil => simp
  | cons q qs ih =>
      simp only [List.map_cons, List.foldl_cons, ih, step, List.map]
      simp [List.append_assoc]

theorem timestamps_invariant (evs : List Event) (st : AppState)
    (h : ∀ r ∈ st.generated_prompts, r.timestamp = "Just now") :
    ∀ r ∈ (evs.foldl step st).generated_prompts, r.timestamp = "Just now" := by
  induction evs generalizing st with
  | nil => exact h
  | cons e evs ih =>
      rw [List.foldl_cons]
      refine ih (step st e) ?_
      intro r hr
      cases e with
      | savePrompt t p pt lv =>
          rcases List.mem_append.1 hr with h1 | h1
          · exact h r h1
          · rw [List.mem_singleton.1 h1]; rfl
      | saveRefinement ct sn p =>
          rcases List.mem_append.1 hr with h1 | h1
          · exact h r h1
          · rw [List.mem_singleton.1 h1]; rfl
      | useForRefinement p => exact h r hr
      | deleteAt ft idx =>
          exact h r ((st.generated_prompts.eraseIdx_sublist idx).subset hr)

theorem base_none_invariant (evs : List Event) (st : AppState)
    (hall : evs.all (fun e => !isUseForRefinement e) = true)
    (h : st.base_prompt = none) : (evs.foldl step st).base_prompt = none := by
  induction evs generalizing st with
  | nil => exact h
  | cons e evs ih =>
      rw [List.all_cons, Bool.and_eq_true] at hall
      rw [List.foldl_cons]
      refine ih (step st e) hall.2 ?_
      cases e with
      | savePrompt t p pt lv => exact h
      | saveRefinement ct sn p => exact h
      | useForRefinement p => simp [isUseForRefinement] at hall
      | deleteAt ft idx => exact h

theorem head_dropWhile_all (p : Char → Bool) (l : List Char) :
    ((l.dropWhile p).head?).all (fun c => !p c) = true := by
  induction l with
  | nil => rfl
  | cons a l ih =>
      by_cases h : p a
      · simpa [List.dropWhile_cons, h] using ih
      · simp [List.dropWhile_cons, h]

theorem head_all_of_append (p : Char → Bool) (l₁ t l₂ : List Char) (heq : l₁ ++ t = l₂)
    (h : l₂.head?.all p = true) : l₁.head?.all p = true := by
  cases l₁ with
  | nil => rfl
  | cons a l => subst heq; simpa using h

theorem strip_decomp (f : Char → Bool) (l : List Char) :
    ((l.reverse.dropWhile f).reverse) ++ (l.reverse.takeWhile f).reverse = l :=
  calc ((l.reverse.dropWhile f).reverse) ++ (l.reverse.takeWhile f).reverse
      = ((l.reverse.takeWhile f) ++ (l.reverse.dropWhile f)).reverse :=
        (List.reverse_append _ _).symm
    _ = (l.reverse).reverse := by rw [List.takeWhile_append_dropWhile]
    _ = l := l.reverse_reverse

theorem renderExpanders_map_fst {α : Type} (n : Nat) (l : List α) :
    (renderExpanders n l).map Prod.fst = l := by
  induction l generalizing n with
  | nil => rfl
  | cons a l ih => simp [renderExpanders, ih]

theorem renderExpanders_getElem? {α : Type} (n i : Nat) (l : List α) :
    (renderExpanders n l)[i]? = (l[i]?).map (fun r => (r, (n + i) == 0)) := by
  induction l generalizing n i with
  | nil => simp [renderExpanders]
  | cons a l ih =>
      cases i with
      | zero => simp [renderExpanders]
      | succ i =>
          simp only [renderExpanders, List.getElem?_cons_succ, ih (n + 1) i]
          have : n + 1 + i = n + (i + 1) := by omega
          rw [this]

/-! ## Claims -/

/-- C1: the claim asserts that deleting at filtered position 0 under the
`Detailed` filter removes the detailed record from the underlying list.  The
code (app.py line 573) pops the *underlying* list at the *filtered* index,
so on the seeded state [high-level, detailed, refinement] it removes the
high-level record and keeps the detailed one: the claim fails on the code,
which contradicts the spec's own intended contract for `delete`. -/
theorem delete_through_filtered_view_pops_wrong_record :
    filteredPrompts "Detailed" seededState.generated_prompts = [recDetailed] ∧
    (step seededState (Event.deleteAt "Detailed" 0)).generated_prompts = [recDetailed, recRefine] ∧
    recHigh ∉ (step seededState (Event.deleteAt "Detailed" 0)).generated_prompts ∧
    recDetailed ∈ (step seededState (Event.deleteAt "Detailed" 0)).generated_prompts := by
  refine ⟨by decide, by decide, by decide, by decide⟩

/-- C2: filtering by each level name returns exactly the in-order
subsequence of records with that `level` attribute, `All` (any unlisted
value) returns the full sequence, and the result is always a sublist of the
input (the underlying list is read, never mutated). -/
theorem filter_returns_matching_subsequence (l : List SavedPrompt) :
    filteredPrompts "All" l = l ∧
    filteredPrompts "High-Level" l = l.filter (fun p => p.level == "high-level") ∧
    filteredPrompts "Detailed" l = l.filter (fun p => p.level == "detailed") ∧
    filteredPrompts "Refinement" l = l.filter (fun p => p.level == "refinement") ∧
    (∀ filter_type : String, List.Sublist (filteredPrompts filter_type l) l) := by
  refine ⟨?_, ?_, ?_, ?_, ?_⟩
  · simp [filteredPrompts]
  · simp [filteredPrompts]
  · simp [filteredPrompts]
  · simp [filteredPrompts]
  · intro ft
    unfold filteredPrompts
    split
    · exact List.filter_sublist l
    split
    · exact List.filter_sublist l
    split
    · exact List.filter_sublist l
    · exact List.Sublist.refl l

/-- C3: after n successful saves starting from the empty registry, the
`All` view has exactly the n saved records in insertion order, and each
save appends its record at the end of the underlying list. -/
theorem appends_preserved_in_order (qs : List (String × String × String × String)) :
    filteredPrompts "All"
        ((run (qs.map (fun q => Event.savePrompt q.1 q.2.1 q.2.2.1 q.2.2.2))).generated_prompts)
      = qs.map (fun q => mkSavedPrompt q.1 q.2.1 q.2.2.1 q.2.2.2) ∧
    (filteredPrompts "All"
        ((run (qs.map (fun q => Event.savePrompt q.1 q.2.1 q.2.2.1 q.2.2.2))).generated_prompts)).length
      = qs.length ∧
    (∀ (st : AppState) (t p pt lv : String),
      (step st (Event.savePrompt t p pt lv)).generated_prompts
        = st.generated_prompts ++ [mkSavedPrompt t p pt lv]) := by
  have hall : ∀ m : List SavedPrompt, filteredPrompts "All" m = m := by
    intro m; simp [filteredPrompts]
  have hrun : (run (qs.map (fun q => Event.savePrompt q.1 q.2.1 q.2.2.1 q.2.2.2))).generated_prompts
      = qs.map (fun q => mkSavedPrompt q.1 q.2.1 q.2.2.1 q.2.2.2) := by
    rw [run, foldl_step_saves qs initState]; rfl
  refine ⟨by rw [hall, hrun], by rw [hall, hrun, List.length_map], fun st t p pt lv => rfl⟩

/-- C4: for any non-empty app type, the high-level composed context contains
the app-type text and the vibe-adjectives text as substrings; at the spec's
example inputs (app type "An app for marathon runners", vibe "vibrant,
encouraging", default visual style) the context contains none of the
detailed-only field labels. -/
theorem highLevelContext_contains_inputs_omits_detailed_fields
    (project_type vibe_adjectives visual_style : String) (_h : project_type ≠ "") :
    project_type.data <:+: (highLevelContext project_type vibe_adjectives visual_style).data ∧
    vibe_adjectives.data <:+: (highLevelContext project_type vibe_adjectives visual_style).data ∧
    (∀ lab ∈ detailedOnlyLabels,
      ¬ lab.data <:+: (highLevelContext "An app for marathon runners" "vibrant, encouraging"
          "Japandi (minimal, neutral)").data) := by
  refine ⟨?_, ?_, ?_⟩
  · refine ⟨("\n" ++ ind ++ "Prompt Level: High-Level (for brainstorming)" ++ "\n" ++ ind
        ++ "App Type: ").data,
      ("\n" ++ ind ++ "Vibe/Adjectives: " ++ vibe_adjectives ++ "\n" ++ ind
        ++ "Visual Style: " ++ visual_style ++ "\n" ++ ind).data, ?_⟩
    simp [highLevelContext, String.data_append]
  · refine ⟨("\n" ++ ind ++ "Prompt Level: High-Level (for brainstorming)" ++ "\n" ++ ind
        ++ "App Type: " ++ project_type ++ "\n" ++ ind ++ "Vibe/Adjectives: ").data,
      ("\n" ++ ind ++ "Visual Style: " ++ visual_style ++ "\n" ++ ind).data, ?_⟩
    simp [highLevelContext, String.data_append]
  · intro lab hlab
    simp only [detailedOnlyLabels, List.mem_cons, List.not_mem_nil, or_false] at hlab
    rcases hlab with h1 | h1 | h1 | h1 | h1 | h1 <;> subst h1 <;> decide

/-- C5: the AI call is dispatched iff the required inputs for the context
are non-empty (app type alone for high-level; project type and description
for detailed; base prompt, screen name and change detail for refinement);
when the guard fails, no call is made, a missing-input `st.warning` (not an
error) is shown, and session state is unchanged. -/
theorem dispatch_iff_required_inputs (st : AppState)
    (prompt_level project_type project_description base_prompt screen_name change_detail : String)
    (o₁ : Outcome (List UIPromptSuggestion)) (o₂ : Outcome String) :
    ((generateHandler st prompt_level project_type project_description o₁).dispatched = true ↔
      (project_type ≠ "" ∧ (prompt_level = "high-level" ∨ project_description ≠ ""))) ∧
    ((refinementHandler st base_prompt screen_name change_detail o₂).dispatched = true ↔
      (base_prompt ≠ "" ∧ screen_name ≠ "" ∧ change_detail ≠ "")) ∧
    (¬(project_type ≠ "" ∧ (prompt_level = "high-level" ∨ project_description ≠ "")) →
      (generateHandler st prompt_level project_type project_description o₁).state = st ∧
      (generateHandler st prompt_level project_type project_description o₁).display =
        .warning (if prompt_level = "high-level" then "Please fill in the app type field."
                  else "Please fill in the project type and description fields.")) ∧
    (¬(base_prompt ≠ "" ∧ screen_name ≠ "" ∧ change_detail ≠ "") →
      (refinementHandler st base_prompt screen_name change_detail o₂).state = st ∧
      (refinementHandler st base_prompt screen_name change_detail o₂).display =
        .warning "Please fill in all required fields: base app description, screen name, and change details.") := by
  refine ⟨?_, ?_, ?_, ?_⟩
  · cases o₁ <;> (rw [generateHandler.eq_def]; split_ifs with hg hl <;> simp [hg])
  · cases o₂ <;> (rw [refinementHandler.eq_def]; split_ifs with hg <;> simp [hg])
  · intro hg
    rw [generateHandler.eq_def, if_neg hg]
    by_cases hl : prompt_level = "high-level" <;> simp [hl]
  · intro hg
    rw [refinementHandler.eq_def, if_neg hg]
    exact ⟨rfl, rfl⟩

/-- C5 witness: with empty required inputs the guards fail, the state is
unchanged and a missing-input warning is shown. -/
theorem dispatch_iff_required_inputs_witness :
    ((generateHandler initState "high-level" "" "" (.exn "e")).state = initState ∧
     (generateHandler initState "high-level" "" "" (.exn "e")).display =
       .warning "Please fill in the app type field.") ∧
    ((refinementHandler initState "" "s" "c" (.ok "t")).state = initState ∧
     (refinementHandler initState "" "s" "c" (.ok "t")).display =
       .warning "Please fill in all required fields: base app description, screen name, and change details.") := by
  have h := dispatch_iff_required_inputs initState "high-level" "" "" "" "s" "c"
    (.exn "e") (.ok "t")
  exact ⟨h.2.2.1 (by decide), h.2.2.2 (by decide)⟩

/-- C6: on the no-schema (refinement) path a successful call displays
exactly the provider text stripped of surrounding whitespace, and the
stripped text has no leading and no trailing whitespace character. -/
theorem refinement_result_is_stripped_text (st : AppState)
    (base_prompt screen_name change_detail t : String)
    (h : base_prompt ≠ "" ∧ screen_name ≠ "" ∧ change_detail ≠ "") :
    (refinementHandler st base_prompt screen_name change_detail (.ok t)).display
        = .refinementResult (pyStrip t) ∧
    (pyStrip t).data.head?.all (fun c => !isPySpace c) = true ∧
    (pyStrip t).data.getLast?.all (fun c => !isPySpace c) = true := by
  refine ⟨?_, ?_, ?_⟩
  · rw [refinementHandler, if_pos h]
  · exact head_all_of_append _ _ _ _
      (strip_decomp isPySpace (t.data.dropWhile isPySpace))
      (head_dropWhile_all isPySpace t.data)
  · show (((t.data.dropWhile isPySpace).reverse.dropWhile isPySpace).reverse).getLast?.all
        (fun c => !isPySpace c) = true
    rw [List.getLast?_reverse]
    exact head_dropWhile_all isPySpace (t.data.dropWhile isPySpace).reverse

/-- C6 witness: at a concrete whitespace-padded response the displayed
refinement text is the stripped text, whitespace-free at both ends. -/
theorem refinement_result_is_stripped_text_witness :
    (refinementHandler initState "b" "s" "c" (.ok "  hi there\t\n")).display
        = .refinementResult (pyStrip "  hi there\t\n") ∧
    (pyStrip "  hi there\t\n").data.head?.all (fun c => !isPySpace c) = true ∧
    (pyStrip "  hi there\t\n").data.getLast?.all (fun c => !isPySpace c) = true :=
  refinement_result_is_stripped_text initState "b" "s" "c" "  hi there\t\n" (by decide)

/-- C7: at each of the three external call sites a failure is converted to
the site's inline error message and the session state is returned
unchanged; the handlers are total functions, so no failure escapes. -/
theorem call_failures_contained (st : AppState)
    (prompt_level project_type project_description base_prompt screen_name change_detail e : String) :
    (ideaHandler st (.exn e)).state = st ∧
    (ideaHandler st (.exn e)).display = .errorMsg ("Error generating ideas: " ++ e) ∧
    (generateHandler st prompt_level project_type project_description (.exn e)).state = st ∧
    ((project_type ≠ "" ∧ (prompt_level = "high-level" ∨ project_description ≠ "")) →
      (generateHandler st prompt_level project_type project_description (.exn e)).display =
        .errorMsg ("Error generating prompts: " ++ e)) ∧
    (refinementHandler st base_prompt screen_name change_detail (.exn e)).state = st ∧
    ((base_prompt ≠ "" ∧ screen_name ≠ "" ∧ change_detail ≠ "") →
      (refinementHandler st base_prompt screen_name change_detail (.exn e)).display =
        .errorMsg ("Error generating refinement: " ++ e)) := by
  refine ⟨rfl, rfl, ?_, ?_, ?_, ?_⟩
  · by_cases hg : project_type ≠ "" ∧ (prompt_level = "high-level" ∨ project_description ≠ "")
    · rw [generateHandler, if_pos hg]
    · rw [generateHandler, if_neg hg]
      by_cases hl : prompt_level = "high-level" <;> simp [hl]
  · intro hg; rw [generateHandler, if_pos hg]
  · by_cases hg : base_prompt ≠ "" ∧ screen_name ≠ "" ∧ change_detail ≠ ""
    · rw [refinementHandler, if_pos hg]
    · rw [refinementHandler, if_neg hg]
  · intro hg; rw [refinementHandler, if_pos hg]

/-- C7 witness: a concrete failure at each call site yields the inline error
message and leaves the state untouched. -/
theorem call_failures_contained_witness :
    (ideaHandler initState (.exn "boom")).state = initState ∧
    (ideaHandler initState (.exn "boom")).display =
      .errorMsg ("Error generating ideas: " ++ "boom") ∧
    (generateHandler initState "high-level" "a" "" (.exn "boom")).state = initState ∧
    (generateHandler initState "high-level" "a" "" (.exn "boom")).display =
      .errorMsg ("Error generating prompts: " ++ "boom") ∧
    (refinementHandler initState "b" "s" "c" (.exn "boom")).state = initState ∧
    (refinementHandler initState "b" "s" "c" (.exn "boom")).display =
      .errorMsg ("Error generating refinement: " ++ "boom") := by
  have h := call_failures_contained initState "high-level" "a" "" "b" "s" "c" "boom"
  exact ⟨h.1, h.2.1, h.2.2.1, h.2.2.2.1 (by decide), h.2.2.2.2.1, h.2.2.2.2.2 (by decide)⟩

/-- C4 witness: at the spec's example inputs the app type is non-empty and
the composed high-level context contains the app-type text. -/
theorem highLevelContext_contains_inputs_omits_detailed_fields_witness :
    ("An app for marathon runners" : String).data <:+:
      (highLevelContext "An app for marathon runners" "vibrant, encouraging"
        "Japandi (minimal, neutral)").data ∧
    ("vibrant, encouraging" : String).data <:+:
      (highLevelContext "An app for marathon runners" "vibrant, encouraging"
        "Japandi (minimal, neutral)").data := by
  have h := highLevelContext_contains_inputs_omits_detailed_fields
    "An app for marathon runners" "vibrant, encouraging" "Japandi (minimal, neutral)"
    (by decide)
  exact ⟨h.1, h.2.1⟩

/-- C8: the renderer pairs each record with its expanded-by-default flag:
the order of records is preserved, the flag at enumeration index 0 is true
and at every other index false, and the success branches of the idea and
prompt handlers display exactly this rendering. -/
theorem expanders_first_open_rest_collapsed {α : Type} (l : List α) :
    (renderExpanders 0 l).map Prod.fst = l ∧
    (∀ i : Nat, ((renderExpanders 0 l)[i]?).all (fun s => s.2 == (i == 0)) = true) ∧
    (∀ (st : AppState) (ideas : List UIDesignIdea),
      (ideaHandler st (.ok ideas)).display = .ideaResults (renderExpanders 0 ideas)) ∧
    (∀ (st : AppState) (project_description : String)
        (suggestions : List UIPromptSuggestion),
      (generateHandler st "high-level" "x" project_description (.ok suggestions)).display
        = .promptResults (renderExpanders 0 suggestions)) := by
  refine ⟨renderExpanders_map_fst 0 l, ?_, fun st ideas => rfl, ?_⟩
  · intro i
    rw [renderExpanders_getElem? 0 i l]
    cases h : l[i]? <;> simp
  · intro st pd suggestions
    rw [generateHandler, if_pos ⟨by decide, Or.inl rfl⟩]

/-- C9: every record ever appended to the saved-prompt list carries the
constant timestamp string "Just now", whatever the session's event
history. -/
theorem saved_records_timestamp_constant (evs : List Event) (r : SavedPrompt)
    (h : r ∈ (run evs).generated_prompts) : r.timestamp = "Just now" :=
  timestamps_invariant evs initState (by intro r hr; simp [initState] at hr) r h

/-- C9 witness: a concretely saved record is in the list and carries the
timestamp "Just now". -/
theorem saved_records_timestamp_constant_witness :
    mkSavedPrompt "t" "p" "pt" "high-level" ∈
      (run [Event.savePrompt "t" "p" "pt" "high-level"]).generated_prompts ∧
    (mkSavedPrompt "t" "p" "pt" "high-level").timestamp = "Just now" :=
  ⟨by decide,
   saved_records_timestamp_constant [Event.savePrompt "t" "p" "pt" "high-level"]
     (mkSavedPrompt "t" "p" "pt" "high-level") (by decide)⟩

/-- C10: `base_prompt` stays absent while no "use for refinement" action
occurs; while absent the base-description field renders as a placeholder
with no pre-filled value; and each "use for refinement" action overwrites
`base_prompt` unconditionally, leaving the saved-prompt list unchanged. -/
theorem base_prompt_lifecycle (evs : List Event) (st : AppState) (p : String) :
    (evs.all (fun e => !isUseForRefinement e) = true → (run evs).base_prompt = none) ∧
    (st.base_prompt = none → renderBaseField st =
      .withPlaceholder "Paste your initial app prompt here or select from saved prompts") ∧
    (step st (.useForRefinement p)).base_prompt = some p ∧
    (step st (.useForRefinement p)).generated_prompts = st.generated_prompts := by
  refine ⟨fun hall => base_none_invariant evs initState hall rfl, ?_, rfl, rfl⟩
  intro h
  rw [renderBaseField, h]

/-- C10 witness: after a lone save event `base_prompt` is still absent, the
initial state's base field is a placeholder, and a concrete "use for
refinement" sets `base_prompt`. -/
theorem base_prompt_lifecycle_witness :
    (run [Event.savePrompt "t" "p" "pt" "high-level"]).base_prompt = none ∧
    renderBaseField initState =
      .withPlaceholder "Paste your initial app prompt here or select from saved prompts" ∧
    (step initState (.useForRefinement "x")).base_prompt = some "x" := by
  have h := base_prompt_lifecycle [Event.savePrompt "t" "p" "pt" "high-level"] initState "x"
  exact ⟨h.1 (by decide), h.2.1 rfl, h.2.2.1⟩

end StitchApp
